import Mathlib

/-!
Shallow embedding of `gen_data.py` from the SyntheticDataGeneration
repository, together with theorems settling the specification claims.

The script is a straight-line program: it builds a list
`transactions_data` of `NUM_TRANSACTIONS` synthetic transaction records
(each field sampled from the `random` / `faker` libraries), wraps it in a
pandas `DataFrame`, writes a CSV file and a JSON file, and prints a
completion message.

The pseudo-random source (`random` module and `Faker` instance) is
modelled as a structure of oracle streams: each primitive kind of call
(`random.choices` / `random.choice`, `random.randint`, `random.uniform`,
`faker.name()`, `faker.country()`, `faker.image_url()`,
`faker.date_time_between`) consumes successive elements of its stream,
indexed in the exact order the Python list comprehension makes the calls.
A library primitive's contract (e.g. `randint(a, b)` returns a value in
`[a, b]`) is realised by construction from the unconstrained raw stream,
exactly as documented for the Python function; the distributional part of
the contract is not modelled.  Python floats are modelled as rationals.
-/

namespace GenData

/-- `NUM_AGENTS = 25` from the constants block of `gen_data.py`. -/
def NUM_AGENTS : Nat := 25

/-- `NUM_CLIENTS = 100` from the constants block of `gen_data.py`. -/
def NUM_CLIENTS : Nat := 100

/-- `NUM_TRANSACTIONS = 1000` from the constants block of `gen_data.py`. -/
def NUM_TRANSACTIONS : Nat := 1000

/-- The alphabet `string.ascii_uppercase + string.digits` used by
`generate_transaction_code`. -/
def codeAlphabet : List Char :=
  "ABCDEFGHIJKLMNOPQRSTUVWXYZ0123456789".toList

/-- The state of the global pseudo-random source (`random` module plus the
`Faker` instance), modelled as one stream per primitive kind of call.
The streams are unconstrained; the contract of each Python primitive is
imposed by the wrapper functions below. -/
structure RandSource where
  /-- raw draws backing `random.choice` / `random.choices`. -/
  rawChoice : Nat → Nat
  /-- raw draws backing `random.randint`. -/
  rawInt : Nat → Nat
  /-- raw draws backing `random.uniform` (a rational, reduced to `[0,1)`
  by taking its fractional part). -/
  rawUnif : Nat → ℚ
  /-- results of `faker.name()` calls. -/
  fakerName : Nat → String
  /-- results of `faker.country()` calls. -/
  fakerCountry : Nat → String
  /-- results of `faker.image_url()` calls. -/
  fakerUrl : Nat → String
  /-- results of `faker.date_time_between(start_date="-5y", end_date="now")`
  calls, as integer timestamps (seconds); rendering to ISO 8601 is `isoformat`. -/
  fakerDate : Nat → Nat

/-- `random.choice(l)` (also one draw of `random.choices(l, k=…)`): an
element of `l` selected by the raw draw.  Python's `choice` raises on an
empty sequence; every call site in the script passes a non-empty list, so
the default is never exercised there. -/
def pyChoice {α : Type} (l : List α) (raw : Nat) (dflt : α) : α :=
  l.getD (raw % l.length) dflt

/-- `random.randint(lo, hi)`: an integer in `[lo, hi]` (both ends
included), selected by the raw draw. -/
def pyRandint (lo hi raw : Nat) : Nat :=
  lo + raw % (hi - lo + 1)

/-- `random.uniform(a, b)`: a number in the interval `[a, b]`, obtained
from the raw rational draw via its fractional part. -/
def pyUniform (a b : ℚ) (raw : ℚ) : ℚ :=
  a + (b - a) * Int.fract raw

/-- Python's `round(x, 2)`: `x` rounded to the nearest multiple of
`1/100`.  (Python rounds ties on floats to even; ties are immaterial to
every claim, so the rounding mode at exact half-points follows Mathlib's
`round`.) -/
def pyRound2 (q : ℚ) : ℚ :=
  ((round (q * 100) : ℤ) : ℚ) / 100

/-- `datetime.isoformat()` on the modelled timestamp: an order-preserving,
injective fixed-width rendering (ISO 8601 strings of a fixed era compare
lexicographically in chronological order, which this models by
zero-padded decimal seconds). -/
def isoformat (t : Nat) : String :=
  ⟨List.replicate (20 - (toString t).length) '0'⟩ ++ toString t

/-- `random_datetime(start, end)` from the script: delegates to
`faker.date_time_between`, i.e. reads the faker date stream. -/
def random_datetime (src : RandSource) (t : Nat) : Nat :=
  src.fakerDate t

/-- `generate_transaction_code()` from the script:
`"TXN-" + ''.join(random.choices(string.ascii_uppercase + string.digits, k=8))`.
`base` is the position in the choice stream at which the 8 draws start. -/
def generate_transaction_code (src : RandSource) (base : Nat) : String :=
  "TXN-" ++ String.mk
    ((List.range 8).map fun j => pyChoice codeAlphabet (src.rawChoice (base + j)) 'A')

/-- One synthetic transaction record: the 17 fields of the dictionary
built by the `transactions_data` list comprehension. -/
structure Record where
  TransactionID : Nat
  TransactionCode : String
  ClientID : Nat
  ClientFullName : String
  AgentID : Nat
  AgentFullName : String
  TransactionDate : String
  Amount : ℚ
  Currency : String
  OriginalCountry : String
  DestinationCountry : String
  Fee : ℚ
  TransactionStatus : String
  StatusDate : String
  Category : String
  Icon : String
  IsFraudulent : Nat
deriving DecidableEq, Repr

/-- The record built at loop index `i` of the `transactions_data`
comprehension.  Stream positions are assigned in the order the Python
expression makes its calls: per record, 12 `choice` draws (8 code
characters, then Currency, TransactionStatus, Category, IsFraudulent),
2 `randint` draws (ClientID, AgentID), 2 `uniform` draws (Amount, Fee),
2 `faker.name()` calls, 2 `faker.country()` calls, 1 `faker.image_url()`
call and 2 `faker.date_time_between` calls (TransactionDate, StatusDate). -/
def recordAt (src : RandSource) (i : Nat) : Record where
  TransactionID := i + 1
  TransactionCode := generate_transaction_code src (12 * i)
  ClientID := pyRandint 1 NUM_CLIENTS (src.rawInt (2 * i))
  ClientFullName := src.fakerName (2 * i)
  AgentID := pyRandint 1 NUM_AGENTS (src.rawInt (2 * i + 1))
  AgentFullName := src.fakerName (2 * i + 1)
  TransactionDate := isoformat (random_datetime src (2 * i))
  Amount := pyRound2 (pyUniform 10 10000 (src.rawUnif (2 * i)))
  Currency := pyChoice ["USD", "EUR", "GBP", "INR", "AUD", "CAD"]
    (src.rawChoice (12 * i + 8)) "USD"
  OriginalCountry := src.fakerCountry (2 * i)
  DestinationCountry := src.fakerCountry (2 * i + 1)
  Fee := pyRound2 (pyUniform 1 50 (src.rawUnif (2 * i + 1)))
  TransactionStatus := pyChoice ["Completed", "Pending", "Failed", "Cancelled"]
    (src.rawChoice (12 * i + 9)) "Completed"
  StatusDate := isoformat (random_datetime src (2 * i + 1))
  Category := pyChoice ["Send", "Receive", "Other"]
    (src.rawChoice (12 * i + 10)) "Send"
  Icon := src.fakerUrl i
  IsFraudulent := pyChoice [0, 1] (src.rawChoice (12 * i + 11)) 0

/-- The `transactions_data` list comprehension,
`[{...} for i in range(n)]`, generalised over the count `n`
(the script instantiates `n := NUM_TRANSACTIONS`). -/
def transactionsData (n : Nat) (src : RandSource) : List Record :=
  (List.range n).map (recordAt src)

/-- `transactions_data` exactly as in the script: `n = NUM_TRANSACTIONS`. -/
def transactions_data (src : RandSource) : List Record :=
  transactionsData NUM_TRANSACTIONS src

/-- A Python scalar value as it appears in a record dictionary and in the
serialized outputs: `int`, `float` (modelled as a rational) or `str`. -/
inductive Value where
  | vInt (n : Int)
  | vFloat (q : ℚ)
  | vStr (s : String)
deriving DecidableEq, Repr

/-- The Python type tag of a scalar value. -/
inductive VType where
  | int
  | float
  | str
deriving DecidableEq, Repr

/-- Type of a scalar value. -/
def valueType : Value → VType
  | .vInt _ => .int
  | .vFloat _ => .float
  | .vStr _ => .str

/-- The record dictionary as an ordered association list — the key/value
pairs of the literal `{...}` in the `transactions_data` comprehension, in
source order. -/
def recordPairs (r : Record) : List (String × Value) :=
  [("TransactionID", .vInt r.TransactionID),
   ("TransactionCode", .vStr r.TransactionCode),
   ("ClientID", .vInt r.ClientID),
   ("ClientFullName", .vStr r.ClientFullName),
   ("AgentID", .vInt r.AgentID),
   ("AgentFullName", .vStr r.AgentFullName),
   ("TransactionDate", .vStr r.TransactionDate),
   ("Amount", .vFloat r.Amount),
   ("Currency", .vStr r.Currency),
   ("OriginalCountry", .vStr r.OriginalCountry),
   ("DestinationCountry", .vStr r.DestinationCountry),
   ("Fee", .vFloat r.Fee),
   ("TransactionStatus", .vStr r.TransactionStatus),
   ("StatusDate", .vStr r.StatusDate),
   ("Category", .vStr r.Category),
   ("Icon", .vStr r.Icon),
   ("IsFraudulent", .vInt r.IsFraudulent)]

/-- The 17 field names, in the order of the record dictionary. -/
def fieldNames : List String :=
  ["TransactionID", "TransactionCode", "ClientID", "ClientFullName",
   "AgentID", "AgentFullName", "TransactionDate", "Amount", "Currency",
   "OriginalCountry", "DestinationCountry", "Fee", "TransactionStatus",
   "StatusDate", "Category", "Icon", "IsFraudulent"]

/-- The Python type of each of the 17 fields, in order. -/
def fieldTypes : List VType :=
  [.int, .str, .int, .str, .int, .str, .str, .float, .str,
   .str, .str, .float, .str, .str, .str, .str, .int]

/-- A JSON document, as produced by `json.dump` (only the shapes the
script can emit matter: numbers, strings, arrays, objects). -/
inductive Json where
  | jInt (n : Int)
  | jNum (q : ℚ)
  | jStr (s : String)
  | jArr (elems : List Json)
  | jObj (fields : List (String × Json))

/-- JSON encoding of a Python scalar. -/
def valueToJson : Value → Json
  | .vInt n => .jInt n
  | .vFloat q => .jNum q
  | .vStr s => .jStr s

/-- JSON encoding of a record: an object with the dictionary's keys in
insertion order (Python dicts preserve insertion order, and `json.dump`
writes keys in that order). -/
def recordToJson (r : Record) : Json :=
  .jObj ((recordPairs r).map fun p => (p.1, valueToJson p.2))

/-- `json.dump(transactions_data, f, indent=4)`, at the document level:
the JSON array of the encoded records. -/
def json_dump (rs : List Record) : Json :=
  .jArr (rs.map recordToJson)

/-- JSON decoding of a scalar (a container is not a scalar). -/
def jsonToValue : Json → Option Value
  | .jInt n => some (.vInt n)
  | .jNum q => some (.vFloat q)
  | .jStr s => some (.vStr s)
  | .jArr _ => none
  | .jObj _ => none

/-- Decode the field list of a JSON object whose values are scalars. -/
def decodeObjFields : List (String × Json) → Option (List (String × Value))
  | [] => some []
  | (k, j) :: rest =>
    match jsonToValue j, decodeObjFields rest with
    | some v, some vs => some ((k, v) :: vs)
    | _, _ => none

/-- Decode a JSON object whose values are scalars into an ordered
association list. -/
def decodeObj : Json → Option (List (String × Value))
  | .jObj fs => decodeObjFields fs
  | _ => none

/-- Decode each element of a JSON array's element list as a flat object. -/
def decodeRecordList : List Json → Option (List (List (String × Value)))
  | [] => some []
  | x :: xs =>
    match decodeObj x, decodeRecordList xs with
    | some v, some vs => some (v :: vs)
    | _, _ => none

/-- Decode a JSON array of flat objects (`json.load` on the script's
output shape) into a list of ordered association lists. -/
def decodeRecords : Json → Option (List (List (String × Value)))
  | .jArr xs => decodeRecordList xs
  | _ => none

/-- A pandas `DataFrame`: named columns and a list of rows. -/
structure DataFrame where
  columns : List String
  rows : List (List Value)
deriving Repr

/-- Column labels of `pd.DataFrame(list-of-dicts)`: the union of the
dictionaries' keys in order of first appearance. -/
def keyUnion (rows : List (List (String × Value))) : List String :=
  rows.foldl
    (fun acc row => acc ++ (row.map Prod.fst).filter fun k => decide (k ∉ acc)) []

/-- `pd.DataFrame(records)` on a list of dictionaries. -/
def DataFrame.ofRecords (rs : List (List (String × Value))) : DataFrame where
  columns := keyUnion rs
  rows := rs.map fun row => row.map Prod.snd

/-- `df.to_csv(path, index=False)` at the table level: the header row of
column names followed by the data rows. -/
def DataFrame.toCsvTable (df : DataFrame) : List (List Value) :=
  (df.columns.map Value.vStr) :: df.rows

/-- Content of one written output file. -/
inductive FileData where
  | csv (table : List (List Value))
  | json (indent : Nat) (content : Json)

/-- One file-write side effect: target name and content. -/
structure FileWrite where
  name : String
  data : FileData

/-- Observable behaviour of one run of the script. -/
structure RunResult where
  writes : List FileWrite
  stdout : String
  exitCode : Nat

/-- The whole script, run against a given state of the random source:
build `transactions_data`, wrap it in `transactions_df`, write
`transactions_.csv` (`to_csv`, `index=False`) and `transactions_.json`
(`json.dump`, `indent=4`), and print the completion message.  The script
is straight-line: there is no branch, no exception handler and no
explicit exit, so every run performs exactly these writes and finishes
with exit code 0. -/
def runScript (src : RandSource) : RunResult :=
  let data := transactions_data src
  let transactions_df := DataFrame.ofRecords (data.map recordPairs)
  { writes := [⟨"transactions_.csv", .csv transactions_df.toCsvTable⟩,
               ⟨"transactions_.json", .json 4 (json_dump data)⟩]
    stdout := "Data generation complete. Files saved as CSV, JSON, and SQL dump."
    exitCode := 0 }

/-- A concrete state of the random source (all streams constant), used to
instantiate existential and hypothesis-bearing statements. -/
def zeroSrc : RandSource where
  rawChoice := fun _ => 0
  rawInt := fun _ => 0
  rawUnif := fun _ => 0
  fakerName := fun _ => ""
  fakerCountry := fun _ => ""
  fakerUrl := fun _ => ""
  fakerDate := fun _ => 0

/-! ## Helper lemmas about the random primitives -/

/-- `random.choice` on a non-empty sequence returns one of its elements. -/
theorem pyChoice_mem {α : Type} (l : List α) (raw : Nat) (d : α) (h : l ≠ []) :
    pyChoice l raw d ∈ l := by
  unfold pyChoice
  have hlen : raw % l.length < l.length := Nat.mod_lt _ (List.length_pos.mpr h)
  rw [List.getD_eq_getElem l d hlen]
  exact List.getElem_mem hlen

/-- `random.randint(lo, hi)` returns a value in `[lo, hi]`. -/
theorem pyRandint_bounds (lo hi raw : Nat) (h : lo ≤ hi) :
    lo ≤ pyRandint lo hi raw ∧ pyRandint lo hi raw ≤ hi := by
  unfold pyRandint
  have h1 : raw % (hi - lo + 1) < hi - lo + 1 := Nat.mod_lt _ (Nat.succ_pos _)
  omega

/-- `random.uniform(a, b)` returns a value in `[a, b]` when `a ≤ b`. -/
theorem pyUniform_mem (a b raw : ℚ) (hab : a ≤ b) :
    a ≤ pyUniform a b raw ∧ pyUniform a b raw ≤ b := by
  unfold pyUniform
  have h0 : 0 ≤ Int.fract raw := Int.fract_nonneg raw
  have h1 : Int.fract raw ≤ 1 := (Int.fract_lt_one raw).le
  constructor
  · nlinarith
  · nlinarith

/-- Rounding is monotone on rationals. -/
theorem round_mono_rat {x y : ℚ} (h : x ≤ y) : round x ≤ round y := by
  rw [round_eq, round_eq]
  exact Int.floor_le_floor (by linarith)

/-- Rounding to two decimals keeps a value between integer bounds. -/
theorem pyRound2_bounds (m M : ℤ) (x : ℚ) (h1 : (m : ℚ) ≤ x) (h2 : x ≤ (M : ℚ)) :
    (m : ℚ) ≤ pyRound2 x ∧ pyRound2 x ≤ (M : ℚ) := by
  have hlo : (m * 100 : ℤ) ≤ round (x * 100) := by
    have h := round_mono_rat (x := ((m * 100 : ℤ) : ℚ)) (y := x * 100) (by push_cast; linarith)
    rwa [round_intCast] at h
  have hhi : round (x * 100) ≤ (M * 100 : ℤ) := by
    have h := round_mono_rat (x := x * 100) (y := ((M * 100 : ℤ) : ℚ)) (by push_cast; linarith)
    rwa [round_intCast] at h
  unfold pyRound2
  constructor
  · rw [le_div_iff₀ (by norm_num : (0 : ℚ) < 100)]
    calc (m : ℚ) * 100 = ((m * 100 : ℤ) : ℚ) := by push_cast; ring
      _ ≤ _ := Int.cast_le.mpr hlo
  · rw [div_le_iff₀ (by norm_num : (0 : ℚ) < 100)]
    calc ((round (x * 100) : ℤ) : ℚ) ≤ ((M * 100 : ℤ) : ℚ) := Int.cast_le.mpr hhi
      _ = (M : ℚ) * 100 := by push_cast; ring

/-- The result of `pyRound2` is an integer number of hundredths. -/
theorem pyRound2_hundredths (x : ℚ) : ∃ k : ℤ, pyRound2 x = (k : ℚ) / 100 :=
  ⟨round (x * 100), rfl⟩

/-! ## C1 -/

/-- C1: with the shipped constant `NUM_TRANSACTIONS = 1000`, and in fact
for every count `n`, the generator produces exactly `n` records whose
`TransactionID` values, in order, are `1, 2, …, n` (the image of
`0, …, n-1` under `+1`): sequential from 1, contiguous and unique. -/
theorem transactions_sequential_ids (n : Nat) (src : RandSource) :
    NUM_TRANSACTIONS = 1000 ∧
    (transactionsData n src).length = n ∧
    (transactionsData n src).map Record.TransactionID
      = (List.range n).map (· + 1) := by
  refine ⟨rfl, by simp [transactionsData], ?_⟩
  simp only [transactionsData, List.map_map]
  rfl

/-! ## C2 -/

/-- C2: every generated record's `Amount` lies in `[10, 10000]` and its
`Fee` in `[1, 50]`; each is a uniform sample subsequently rounded to two
decimals, so each is an integer number of hundredths (expressible with
exactly two decimal digits). -/
theorem amount_fee_bounded (n : Nat) (src : RandSource) (r : Record)
    (hr : r ∈ transactionsData n src) :
    (10 ≤ r.Amount ∧ r.Amount ≤ 10000 ∧ ∃ k : ℤ, r.Amount = (k : ℚ) / 100) ∧
    (1 ≤ r.Fee ∧ r.Fee ≤ 50 ∧ ∃ k : ℤ, r.Fee = (k : ℚ) / 100) := by
  obtain ⟨i, _, rfl⟩ := List.mem_map.mp hr
  have ha := pyUniform_mem 10 10000 (src.rawUnif (2 * i)) (by norm_num)
  have hf := pyUniform_mem 1 50 (src.rawUnif (2 * i + 1)) (by norm_num)
  have hab := pyRound2_bounds 10 10000 (pyUniform 10 10000 (src.rawUnif (2 * i)))
    (by exact_mod_cast ha.1) (by exact_mod_cast ha.2)
  have hfb := pyRound2_bounds 1 50 (pyUniform 1 50 (src.rawUnif (2 * i + 1)))
    (by exact_mod_cast hf.1) (by exact_mod_cast hf.2)
  refine ⟨⟨?_, ?_, pyRound2_hundredths _⟩, ⟨?_, ?_, pyRound2_hundredths _⟩⟩
  · exact_mod_cast hab.1
  · exact_mod_cast hab.2
  · exact_mod_cast hfb.1
  · exact_mod_cast hfb.2

/-- Witness for C2 at a concrete source and count. -/
theorem amount_fee_bounded_witness :
    (10 ≤ (recordAt zeroSrc 0).Amount ∧ (recordAt zeroSrc 0).Amount ≤ 10000 ∧
      ∃ k : ℤ, (recordAt zeroSrc 0).Amount = (k : ℚ) / 100) ∧
    (1 ≤ (recordAt zeroSrc 0).Fee ∧ (recordAt zeroSrc 0).Fee ≤ 50 ∧
      ∃ k : ℤ, (recordAt zeroSrc 0).Fee = (k : ℚ) / 100) :=
  amount_fee_bounded 1 zeroSrc (recordAt zeroSrc 0) (by simp [transactionsData])

/-! ## C8 -/

/-- C8: every generated record draws `Currency`, `TransactionStatus` and
`Category` from their declared enumeration sets. -/
theorem enums_in_declared_sets (n : Nat) (src : RandSource) (r : Record)
    (hr : r ∈ transactionsData n src) :
    r.Currency ∈ ["USD", "EUR", "GBP", "INR", "AUD", "CAD"] ∧
    r.TransactionStatus ∈ ["Completed", "Pending", "Failed", "Cancelled"] ∧
    r.Category ∈ ["Send", "Receive", "Other"] := by
  obtain ⟨i, _, rfl⟩ := List.mem_map.mp hr
  simp only [recordAt]
  exact ⟨pyChoice_mem _ _ _ (by simp), pyChoice_mem _ _ _ (by simp),
    pyChoice_mem _ _ _ (by simp)⟩

/-- Witness for C8 at a concrete source and count. -/
theorem enums_in_declared_sets_witness :
    (recordAt zeroSrc 0).Currency ∈ ["USD", "EUR", "GBP", "INR", "AUD", "CAD"] ∧
    (recordAt zeroSrc 0).TransactionStatus ∈
      ["Completed", "Pending", "Failed", "Cancelled"] ∧
    (recordAt zeroSrc 0).Category ∈ ["Send", "Receive", "Other"] :=
  enums_in_declared_sets 1 zeroSrc (recordAt zeroSrc 0) (by simp [transactionsData])

/-! ## C7 -/

/-- C7: every generated `TransactionCode` is the literal prefix `TXN-`
followed by exactly 8 characters drawn from the uppercase-alphanumeric
alphabet, and uniqueness is not enforced: for some source state two
distinct records carry the same code. -/
theorem transaction_code_pattern (n : Nat) (src : RandSource) (r : Record)
    (hr : r ∈ transactionsData n src) :
    (∃ cs : List Char, r.TransactionCode = "TXN-" ++ String.mk cs ∧
      cs.length = 8 ∧ ∀ c ∈ cs, c ∈ codeAlphabet) ∧
    ∃ s : RandSource, ∃ i j : Nat, i ≠ j ∧
      (recordAt s i).TransactionCode = (recordAt s j).TransactionCode := by
  constructor
  · obtain ⟨i, _, rfl⟩ := List.mem_map.mp hr
    refine ⟨(List.range 8).map fun j =>
      pyChoice codeAlphabet (src.rawChoice (12 * i + j)) 'A', rfl, by simp, ?_⟩
    intro c hc
    obtain ⟨j, _, rfl⟩ := List.mem_map.mp hc
    exact pyChoice_mem _ _ _ (by simp [codeAlphabet])
  · exact ⟨zeroSrc, 0, 1, by norm_num, rfl⟩

/-- Witness for C7 at a concrete source and count. -/
theorem transaction_code_pattern_witness :
    (∃ cs : List Char, (recordAt zeroSrc 0).TransactionCode = "TXN-" ++ String.mk cs ∧
      cs.length = 8 ∧ ∀ c ∈ cs, c ∈ codeAlphabet) ∧
    ∃ s : RandSource, ∃ i j : Nat, i ≠ j ∧
      (recordAt s i).TransactionCode = (recordAt s j).TransactionCode :=
  transaction_code_pattern 1 zeroSrc (recordAt zeroSrc 0) (by simp [transactionsData])

/-! ## C6 -/

/-- A source state whose first sampled datetime (the `TransactionDate` of
record 0) is later than its second (the `StatusDate` of record 0). -/
def c6Src : RandSource :=
  { zeroSrc with fakerDate := fun t => if t = 0 then 100 else 50 }

/-- C6: `TransactionDate` and `StatusDate` are sampled by independent
calls with no constraint relating them, so for some state of the random
source a generated record's `StatusDate` (timestamp `b`) is strictly
earlier than its `TransactionDate` (timestamp `a`). -/
theorem status_date_can_precede_transaction_date :
    ∃ src : RandSource, ∃ r ∈ transactionsData NUM_TRANSACTIONS src,
      ∃ a b : Nat, r.TransactionDate = isoformat a ∧ r.StatusDate = isoformat b ∧
        b < a := by
  refine ⟨c6Src, recordAt c6Src 0, ?_, 100, 50, rfl, rfl, by norm_num⟩
  exact List.mem_map.mpr ⟨0, by simp [NUM_TRANSACTIONS], rfl⟩

/-! ## C10 -/

/-- C10: generation is deterministic in the random source — two runs
started from identical states of the random/faker source produce
identical record sequences and identical run results. -/
theorem generation_deterministic (n : Nat) (s1 s2 : RandSource) (h : s1 = s2) :
    transactionsData n s1 = transactionsData n s2 ∧ runScript s1 = runScript s2 := by
  subst h
  exact ⟨rfl, rfl⟩

/-- Witness for C10 at a concrete source. -/
theorem generation_deterministic_witness :
    transactionsData 2 zeroSrc = transactionsData 2 zeroSrc ∧
    runScript zeroSrc = runScript zeroSrc :=
  generation_deterministic 2 zeroSrc zeroSrc rfl

/-! ## Helper lemmas about serialization -/

/-- Decoding the JSON encoding of one record recovers its dictionary. -/
theorem decodeObj_recordToJson (r : Record) :
    decodeObj (recordToJson r) = some (recordPairs r) := rfl

/-- Decoding the element list of the dumped array recovers every record
dictionary. -/
theorem decodeRecordList_map (rs : List Record) :
    decodeRecordList (rs.map recordToJson) = some (rs.map recordPairs) := by
  induction rs with
  | nil => rfl
  | cons r rest ih =>
    simp [decodeRecordList, decodeObj_recordToJson, ih]

/-- Decoding the dumped JSON document recovers the record dictionaries. -/
theorem decodeRecords_json_dump (rs : List Record) :
    decodeRecords (json_dump rs) = some (rs.map recordPairs) := by
  simp only [json_dump, decodeRecords]
  exact decodeRecordList_map rs

/-- The keys of every record dictionary are the 17 field names in schema
order. -/
theorem recordPairs_fst (r : Record) : (recordPairs r).map Prod.fst = fieldNames := rfl

/-- The value types of every record dictionary follow the schema. -/
theorem recordPairs_types (r : Record) :
    (recordPairs r).map (fun p => valueType p.2) = fieldTypes := rfl

/-- Mapping the keys over a record list yields the field names, repeated. -/
theorem map_recordPairs_fst (rs : List Record) :
    rs.map (fun r => (recordPairs r).map Prod.fst)
      = List.replicate rs.length fieldNames := by
  induction rs with
  | nil => rfl
  | cons r rest ih =>
    simp only [List.map_cons, List.length_cons, List.replicate_succ, ih]
    exact congrArg (· :: List.replicate rest.length fieldNames) (recordPairs_fst r)

/-- Mapping the value types over a record list yields the schema types,
repeated. -/
theorem map_recordPairs_types (rs : List Record) :
    rs.map (fun r => (recordPairs r).map fun p => valueType p.2)
      = List.replicate rs.length fieldTypes := by
  induction rs with
  | nil => rfl
  | cons r rest ih =>
    simp only [List.map_cons, List.length_cons, List.replicate_succ, ih]
    exact congrArg (· :: List.replicate rest.length fieldTypes) (recordPairs_types r)

/-- Folding the pandas column-union step over rows that all have key list
`K` leaves an accumulator already equal to `K` unchanged. -/
theorem keyUnion_fold_fixed (K : List String) (rows : List (List (String × Value)))
    (h : ∀ row ∈ rows, row.map Prod.fst = K) :
    rows.foldl
      (fun acc row => acc ++ (row.map Prod.fst).filter fun k => decide (k ∉ acc)) K
      = K := by
  induction rows with
  | nil => rfl
  | cons r rest ih =>
    have hr : r.map Prod.fst = K := h r (by simp)
    have hfilter : K.filter (fun k => decide (k ∉ K)) = [] := by
      apply List.filter_eq_nil_iff.mpr
      intro a ha
      simp [ha]
    simp only [List.foldl_cons, hr, hfilter, List.append_nil]
    exact ih fun row hrow => h row (by simp [hrow])

/-- pandas takes the columns of a `DataFrame` built from a non-empty list
of identically-keyed dictionaries to be exactly that key list. -/
theorem keyUnion_const (K : List String) (rows : List (List (String × Value)))
    (hne : rows ≠ []) (h : ∀ row ∈ rows, row.map Prod.fst = K) :
    keyUnion rows = K := by
  obtain ⟨r, rest, rfl⟩ := List.exists_cons_of_ne_nil hne
  have hr : r.map Prod.fst = K := h r (by simp)
  have hfilter : K.filter (fun k => decide (k ∉ ([] : List String))) = K := by
    apply List.filter_eq_self.mpr
    intro a _
    simp
  unfold keyUnion
  simp only [List.foldl_cons, hr, hfilter, List.nil_append]
  exact keyUnion_fold_fixed K rest fun row hrow => h row (by simp [hrow])

/-! ## C3 -/

/-- C3: the run writes exactly a CSV file named `transactions_.csv`
whose first row is the header of the 17 field names in schema order
followed by one row per record (`NUM_TRANSACTIONS + 1` rows in all), and
a JSON file named `transactions_.json` holding, at 4-space indentation,
the array of 17-key objects with the same field order and the same
values as the CSV rows (each object's pairs are the record's key/value
pairs, values JSON-encoded). -/
theorem csv_json_outputs (src : RandSource) :
    fieldNames.length = 17 ∧
    (runScript src).writes =
      [⟨"transactions_.csv",
        .csv (fieldNames.map Value.vStr ::
          (transactions_data src).map fun r => (recordPairs r).map Prod.snd)⟩,
       ⟨"transactions_.json",
        .json 4 (.jArr ((transactions_data src).map fun r =>
          .jObj ((recordPairs r).map fun p => (p.1, valueToJson p.2))))⟩] ∧
    (fieldNames.map Value.vStr ::
        (transactions_data src).map fun r => (recordPairs r).map Prod.snd).length
      = NUM_TRANSACTIONS + 1 := by
  refine ⟨rfl, ?_, by simp [transactions_data, transactionsData]⟩
  have hcols : keyUnion ((transactions_data src).map recordPairs) = fieldNames := by
    apply keyUnion_const
    · simp [transactions_data, transactionsData, NUM_TRANSACTIONS]
    · intro row hrow
      obtain ⟨r, _, rfl⟩ := List.mem_map.mp hrow
      exact recordPairs_fst r
  simp only [runScript, DataFrame.ofRecords, DataFrame.toCsvTable, hcols,
    List.map_map, json_dump, recordToJson]
  rfl

/-! ## C4 -/

/-- C4: round-trip — decoding the JSON document written from any
generated record sequence succeeds and yields a record set with the same
record count, the same field names and the same value types as the
in-memory sequence. -/
theorem json_roundtrip (n : Nat) (src : RandSource) :
    ∃ t : List (List (String × Value)),
      decodeRecords (json_dump (transactionsData n src)) = some t ∧
      t.length = n ∧ (transactionsData n src).length = n ∧
      t.map (fun row => row.map Prod.fst) = List.replicate n fieldNames ∧
      (transactionsData n src).map (fun r => (recordPairs r).map Prod.fst)
        = List.replicate n fieldNames ∧
      t.map (fun row => row.map fun p => valueType p.2)
        = List.replicate n fieldTypes ∧
      (transactionsData n src).map (fun r => (recordPairs r).map fun p => valueType p.2)
        = List.replicate n fieldTypes := by
  have hlen : (transactionsData n src).length = n := by simp [transactionsData]
  have hfst := map_recordPairs_fst (transactionsData n src)
  have htys := map_recordPairs_types (transactionsData n src)
  rw [hlen] at hfst htys
  refine ⟨(transactionsData n src).map recordPairs, decodeRecords_json_dump _,
    by simp [hlen], hlen, ?_, hfst, ?_, htys⟩
  · rw [List.map_map]
    exact hfst
  · rw [List.map_map]
    exact htys

/-! ## C5 -/

/-- C5: every run — whatever the state of the random source — prints the
completion message to standard output and finishes with exit code 0; the
embedded script is total and branch-free, so no other exit path exists. -/
theorem run_prints_and_exits_zero (src : RandSource) :
    (runScript src).exitCode = 0 ∧
    (runScript src).stdout
      = "Data generation complete. Files saved as CSV, JSON, and SQL dump." :=
  ⟨rfl, rfl⟩

/-! ## C9 -/

/-- C9: a completed run writes exactly two files, `transactions_.csv`
and `transactions_.json`, and no others — in particular no SQL dump —
while the printed completion message nonetheless claims "CSV, JSON, and
SQL dump". -/
theorem exactly_two_files_no_sql (src : RandSource) :
    (runScript src).writes.map FileWrite.name
      = ["transactions_.csv", "transactions_.json"] ∧
    (runScript src).stdout
      = "Data generation complete. Files saved as CSV, JSON, and SQL dump." :=
  ⟨rfl, rfl⟩

end GenData
